import Mathlib

/-!
Verification of the page fetcher & extractor (`week1/scraper.py`).

The Python module is embedded shallowly:

* an HTML document, as produced by the third-party parser, is a tree of
  `Node`s (elements with tag, attributes and children, or text nodes);
  a parsed document (`Doc`) is the list of top-level nodes;
* the parser-library operations the code calls are translated from that
  library's behaviour: `find` is a pre-order search, `Tag.string` is the
  recursive single-child string, `decompose` removes whole subtrees, and
  `get_text(separator="\n", strip=True)` strips each text node, drops the
  ones that become empty and joins the rest;
* Python strings are Lean `String`s; the slice `s[:n]` is `pySlice`
  (character-count truncation), `str.strip()` is `pyStrip`,
  `sep.join(...)` is `pyJoin`;
* the HTTP layer is an `HttpOutcome` input (transport error, or a status
  code with a parsed body); `requests.Response.raise_for_status` raises
  exactly for status codes in `[400, 600)`;
* exceptions escaping a function are `Except.error`; the `TypeError`
  raised by `None + "\n\n"` when a present title has no string is the
  `none` case of the `Option String` result;
* the Selenium path takes the rendered navigation outcome as an input and
  returns, next to its result, whether the `finally` block quit the driver.
-/

set_option maxHeartbeats 1000000

namespace Scraper

/-- A node of the DOM tree produced by the HTML parser: an element with a
tag name, an attribute list and child nodes, or a text node. -/
inductive Node where
  | elem (tag : String) (attrs : List (String × String)) (children : List Node)
  | text (s : String)

/-- A parsed document: the list of top-level nodes of the soup. -/
abbrev Doc := List Node

mutual

/-- `soup.find(tag)` on a single node: first element with the given tag in
pre-order (the node itself, then its descendants). -/
def findFirstNode (tag : String) : Node → Option Node
  | .text _ => none
  | .elem t a cs => if t == tag then some (.elem t a cs) else findFirstList tag cs

/-- `soup.find(tag)` over a list of sibling nodes, in document order. -/
def findFirstList (tag : String) : List Node → Option Node
  | [] => none
  | c :: cs =>
    match findFirstNode tag c with
    | some n => some n
    | none => findFirstList tag cs

end

mutual

/-- `soup.find_all(tag)` on a single node: all elements with the given tag,
in pre-order. -/
def findAllNode (tag : String) : Node → List Node
  | .text _ => []
  | .elem t a cs =>
    (if t == tag then [Node.elem t a cs] else []) ++ findAllList tag cs

/-- `soup.find_all(tag)` over sibling nodes, in document order. -/
def findAllList (tag : String) : List Node → List Node
  | [] => []
  | c :: cs => findAllNode tag c ++ findAllList tag cs

end

mutual

/-- All nodes of a subtree in pre-order (document order). -/
def preorderNode : Node → List Node
  | .text s => [Node.text s]
  | .elem t a cs => Node.elem t a cs :: preorderList cs

/-- All nodes of a forest in pre-order. -/
def preorderList : List Node → List Node
  | [] => []
  | c :: cs => preorderNode c ++ preorderList cs

end

/-- Whether a node is an element carrying the given tag. -/
def tagIs (tag : String) : Node → Bool
  | .elem t _ _ => t == tag
  | .text _ => false

/-- `Tag.string`: if the node is a text node, its text; if it is an element
with exactly one child, that child's string; otherwise `none` (Python
`None`). -/
def nodeString : Node → Option String
  | .text s => some s
  | .elem _ _ [c] => nodeString c
  | .elem _ _ _ => none

/-- `Tag.get(key)`: look the key up in the element's attribute dict (the
parser keeps the first occurrence of a duplicated attribute). -/
def getAttr (n : Node) (key : String) : Option String :=
  match n with
  | .text _ => none
  | .elem _ attrs _ => (attrs.find? (fun p => p.1 == key)).map (fun p => p.2)

/-- The noise tags removed before text extraction. -/
def noiseTags : List String := ["script", "style", "img", "input"]

/-- Whether a node is an element whose tag is one of the noise tags. -/
def isNoise : Node → Bool
  | .elem t _ _ => noiseTags.contains t
  | .text _ => false

mutual

/-- The `for irrelevant in soup.body([...]): irrelevant.decompose()` loop:
every descendant element with a noise tag is removed together with its
whole subtree; the root node itself is kept. -/
def decomposeNoise : Node → Node
  | .text s => .text s
  | .elem t a cs => .elem t a (decomposeNoiseList cs)

/-- Noise removal over a list of sibling nodes. -/
def decomposeNoiseList : List Node → List Node
  | [] => []
  | c :: cs =>
    if isNoise c then decomposeNoiseList cs
    else decomposeNoise c :: decomposeNoiseList cs

end

mutual

/-- The text-node contents of a subtree in document order
(`Tag.strings`). -/
def allStringsNode : Node → List String
  | .text s => [s]
  | .elem _ _ cs => allStringsList cs

/-- The text-node contents of a forest in document order. -/
def allStringsList : List Node → List String
  | [] => []
  | c :: cs => allStringsNode c ++ allStringsList cs

end

/-- The whitespace set of Python `str.strip()` (ASCII part). -/
def pyIsSpace (c : Char) : Bool :=
  c = ' ' || c = '\t' || c = '\n' || c = '\r' || c = '\x0b' || c = '\x0c'

/-- Python `str.strip()`: drop leading and trailing whitespace. -/
def pyStrip (s : String) : String :=
  ⟨((s.data.dropWhile pyIsSpace).reverse.dropWhile pyIsSpace).reverse⟩

/-- Python slicing `s[:n]`: the first `n` characters of the string. -/
def pySlice (s : String) (n : Nat) : String :=
  ⟨s.data.take n⟩

/-- Python `sep.join(items)`. -/
def pyJoin (sep : String) : List String → String
  | [] => ""
  | [s] => s
  | s :: rest => s ++ sep ++ pyJoin sep rest

/-- `Tag.get_text(separator="\n", strip=True)`: strip every text-node
string, skip the ones that become empty, join the rest with the
separator. -/
def get_text (n : Node) : String :=
  pyJoin "\n" (((allStringsNode n).map pyStrip).filter (fun s => s != ""))

/-- `soup.title.string if soup.title else "No title found"`: `none` is
Python `None` (a present title element with no single string child). -/
def titleStringOf (doc : Doc) : Option String :=
  match findFirstList "title" doc with
  | some t => nodeString t
  | none => some "No title found"

/-- The body-text computation of `fetch_website_contents`: if a body
element exists, decompose the noise elements inside it and collect its
text with newline separators and stripping; otherwise the empty string. -/
def bodyTextOf (doc : Doc) : String :=
  match findFirstList "body" doc with
  | some b => get_text (decomposeNoise b)
  | none => ""

/-- The extraction part of `fetch_website_contents` (lines 20-30): title
lookup, noise removal, text collection, and the final
`(title + "\n\n" + text)[:2_000]`. The `none` result is the `TypeError`
raised when `title` is Python `None`. -/
def extract_text (doc : Doc) : Option String :=
  match titleStringOf doc with
  | some title => some (pySlice (title ++ "\n\n" ++ bodyTextOf doc) 2000)
  | none => none

/-- The extraction part of `fetch_website_contents_selenium`
(lines 101-113), which textually duplicates the plain path's code. -/
def extract_text_selenium (doc : Doc) : Option String :=
  match
    (match findFirstList "title" doc with
     | some t => nodeString t
     | none => some "No title found") with
  | some title =>
    let text :=
      match findFirstList "body" doc with
      | some b => get_text (decomposeNoise b)
      | none => ""
    some (pySlice (title ++ "\n\n" ++ text) 2000)
  | none => none

/-- The link-extraction part of `fetch_website_links` (lines 42-44):
`links = [link.get("href") for link in soup.find_all("a")]` followed by
`[link for link in links if link]` (Python truthiness: `None` and the
empty string are dropped). -/
def optTruthy : Option String → Bool
  | none => false
  | some s => s != ""

/-- The hrefs returned by `fetch_website_links` for a parsed document. -/
def fetch_links_extract (doc : Doc) : List String :=
  let links := (findAllList "a" doc).map (fun a => getAttr a "href")
  (links.filter optTruthy).filterMap id

/-- Spec-side description of the link extractor, following the spec's
words: collect every anchor element in document order, read its href
attribute, discard elements with missing or empty href, preserve document
order and duplicates. -/
def links_spec (doc : Doc) : List String :=
  ((preorderList doc).filter (tagIs "a")).filterMap (fun n =>
    match getAttr n "href" with
    | some s => if s == "" then none else some s
    | none => none)

mutual

/-- Spec-side description of noise removal: the text of a subtree where
descendant noise elements contribute nothing at all ("their content is
discarded entirely"); the root's own tag is not examined, matching removal
of descendants of the body. -/
def outsideNoiseNode : Node → List String
  | .text s => [s]
  | .elem _ _ cs => outsideNoiseList cs

/-- Spec-side noise-free text collection over sibling nodes. -/
def outsideNoiseList : List Node → List String
  | [] => []
  | c :: cs => (if isNoise c then [] else outsideNoiseNode c) ++ outsideNoiseList cs

end

/-- Outcome of `requests.get`: a transport error, or a response with a
status code and a parsed body. -/
inductive HttpOutcome where
  | transportError
  | response (status : Nat) (body : Doc)

/-- `Response.raise_for_status` raises `HTTPError` exactly for status
codes in `[400, 600)` (client and server errors). -/
def raiseForStatus (status : Nat) : Bool :=
  decide (400 ≤ status) && decide (status < 600)

/-- Whether a call failed with a fetch-level error (`requests` exception):
`Except.error` is the exception propagating to the caller. -/
def isFetchErr {α : Type} : Except Unit α → Bool
  | .error _ => true
  | .ok _ => false

/-- `fetch_website_contents` (lines 11-30): GET, `raise_for_status`, then
the extraction. The outer `Except` is the propagated `requests` error;
the inner `Option` is the extraction result (`none` = `TypeError`). -/
def fetch_website_contents (o : HttpOutcome) : Except Unit (Option String) :=
  match o with
  | .transportError => .error ()
  | .response st doc =>
    if raiseForStatus st then .error () else .ok (extract_text doc)

/-- `fetch_website_links` (lines 33-44): GET, `raise_for_status`, then the
link extraction. -/
def fetch_website_links (o : HttpOutcome) : Except Unit (List String) :=
  match o with
  | .transportError => .error ()
  | .response st doc =>
    if raiseForStatus st then .error () else .ok (fetch_links_extract doc)

/-- `fetch_website_contents_selenium` (lines 47-116). Inputs: whether the
`driver` argument was supplied (not `None`), the `close_driver` flag, and
the outcome of navigating and reading `driver.page_source` (an error, or
the parsed rendered markup). Output: the function's result (error
propagating, or the extracted text) paired with whether the `finally`
block quit the driver. The `finally` clause runs on every exit path and
quits exactly when `created_local_driver and close_driver`. -/
def fetch_website_contents_selenium (driverProvided close_driver : Bool)
    (nav : Except Unit Doc) : Except Unit (Option String) × Bool :=
  let created_local_driver := !driverProvided
  let result : Except Unit (Option String) :=
    match nav with
    | .error e => .error e
    | .ok doc => .ok (extract_text_selenium doc)
  let driverQuit := created_local_driver && close_driver
  (result, driverQuit)

/-- Whether the first list is a prefix of the second (used to state
"the output begins with ..."). -/
def strBeginsWith (s p : String) : Bool :=
  p.data.isPrefixOf s.data

/- Concrete documents used by the scenarios. -/

/-- The body of the spec's worked scenario:
`<body><p> Hello </p><script>bad()</script></body>`. -/
def scenarioBody : Node :=
  Node.elem "body" []
    [Node.elem "p" [] [Node.text " Hello "],
     Node.elem "script" [] [Node.text "bad()"]]

/-- The spec's worked scenario:
`<html><head><title>Hi</title></head><body>...</body></html>`. -/
def scenarioDoc : Doc :=
  [Node.elem "html" []
    [Node.elem "head" [] [Node.elem "title" [] [Node.text "Hi"]],
     scenarioBody]]

/-- `<a href="/x">a</a><a>b</a><a href="">c</a>`. -/
def linkScenarioDoc : Doc :=
  [Node.elem "a" [("href", "/x")] [Node.text "a"],
   Node.elem "a" [] [Node.text "b"],
   Node.elem "a" [("href", "")] [Node.text "c"]]

/-- Two anchors with the same href (duplicates are preserved). -/
def dupLinkDoc : Doc :=
  [Node.elem "a" [("href", "/x")] [Node.text "a"],
   Node.elem "a" [("href", "/x")] [Node.text "b"]]

/-- A 2000-character title. -/
def longTitle : String := ⟨List.replicate 2000 'a'⟩

/-- A document whose only content is a 2000-character title. -/
def longTitleDoc : Doc := [Node.elem "title" [] [Node.text longTitle]]

/-- A 2001-character title. -/
def longTitleB : String := ⟨List.replicate 2001 'b'⟩

/-- The first 2000 characters of `longTitleB`. -/
def truncB : String := ⟨List.replicate 2000 'b'⟩

/-- A document with a 2001-character title and no body element. -/
def noBodyDoc : Doc := [Node.elem "title" [] [Node.text longTitleB]]

/-- A body in which a paragraph and a script carry the same text. -/
def dupTextDoc : Doc :=
  [Node.elem "body" []
    [Node.elem "p" [] [Node.text "bad()"],
     Node.elem "script" [] [Node.text "bad()"]]]

/-- A document whose title element is present but empty. -/
def emptyTitleDoc : Doc := [Node.elem "title" [] []]

/-- A small document with title and body, for witnesses. -/
def smallTitleDoc : Doc :=
  [Node.elem "title" [] [Node.text "Hi"],
   Node.elem "body" [] [Node.text "x"]]

/-- Whether `sub` occurs as a contiguous run of characters inside `hay`. -/
def hasInfix (sub : List Char) : List Char → Bool
  | [] => sub.isPrefixOf []
  | c :: rest => sub.isPrefixOf (c :: rest) || hasInfix sub rest

/- Helper lemmas. -/

theorem strExt {s t : String} (h : s.data = t.data) : s = t := by
  cases s
  cases t
  exact congrArg String.mk h

theorem strData_append (s t : String) : (s ++ t).data = s.data ++ t.data := by
  cases s
  cases t
  rfl

theorem isPrefixOf_append (l t : List Char) : l.isPrefixOf (l ++ t) = true := by
  induction l with
  | nil => simp
  | cons a l ih => simp [List.isPrefixOf, ih]

theorem isPrefixOf_length_le :
    ∀ (l t : List Char), l.isPrefixOf t = true → l.length ≤ t.length
  | [], _, _ => by simp
  | a :: l, [], h => by simp [List.isPrefixOf] at h
  | a :: l, b :: t, h => by
    simp only [List.isPrefixOf, Bool.and_eq_true] at h
    have ih := isPrefixOf_length_le l t h.2
    simp only [List.length_cons]
    omega

theorem length_pySlice (s : String) (n : Nat) : (pySlice s n).length ≤ n := by
  show (s.data.take n).length ≤ n
  simp [List.length_take]

theorem beginsWith_slice (t rest : String) (n : Nat) :
    strBeginsWith (pySlice (t ++ rest) n) (pySlice t n) = true := by
  show (t.data.take n).isPrefixOf ((t ++ rest).data.take n) = true
  rw [strData_append, List.take_append_eq_append_take]
  exact isPrefixOf_append _ _

mutual

theorem allStrings_decompose (n : Node) :
    allStringsNode (decomposeNoise n) = outsideNoiseNode n := by
  cases n with
  | text s => rfl
  | elem t a cs =>
    show allStringsList (decomposeNoiseList cs) = outsideNoiseList cs
    exact allStringsList_decomposeList cs

theorem allStringsList_decomposeList (l : List Node) :
    allStringsList (decomposeNoiseList l) = outsideNoiseList l := by
  cases l with
  | nil => rfl
  | cons c cs =>
    cases hi : isNoise c with
    | true =>
      simp [decomposeNoiseList, outsideNoiseList, hi,
        allStringsList_decomposeList cs]
    | false =>
      simp [decomposeNoiseList, outsideNoiseList, allStringsList, hi,
        allStrings_decompose c, allStringsList_decomposeList cs]

end

mutual

theorem findAll_eq_preorder (tag : String) (n : Node) :
    findAllNode tag n = (preorderNode n).filter (tagIs tag) := by
  cases n with
  | text s => simp [findAllNode, preorderNode, List.filter, tagIs]
  | elem t a cs =>
    simp only [findAllNode, preorderNode, List.filter_cons]
    rw [findAllList_eq_preorder tag cs]
    cases h : (t == tag) <;> simp [tagIs, h]

theorem findAllList_eq_preorder (tag : String) (l : List Node) :
    findAllList tag l = (preorderList l).filter (tagIs tag) := by
  cases l with
  | nil => rfl
  | cons c cs =>
    simp [findAllList, preorderList, List.filter_append,
      findAll_eq_preorder tag c, findAllList_eq_preorder tag cs]

end

theorem filter_truthy_filterMap (l : List (Option String)) :
    (l.filter optTruthy).filterMap id =
      l.filterMap (fun o =>
        match o with
        | some s => if s == "" then none else some s
        | none => none) := by
  induction l with
  | nil => rfl
  | cons o l ih =>
    cases o with
    | none => simpa [List.filter_cons, List.filterMap_cons, optTruthy] using ih
    | some s =>
      by_cases h : s = "" <;>
        simp [List.filter_cons, List.filterMap_cons, optTruthy, h, ih]

/- Claim theorems. -/

/-- Claim C1: whenever the text extraction returns a string, that string is
the plain character-count cut, at 2000 characters, of
`title ++ "\n\n" ++ body_text`, and so has length at most 2000. (When the
extraction raises instead — see C10 — no string is returned at all.) -/
theorem extract_output_length (doc : Doc) (s : String)
    (h : extract_text doc = some s) :
    s.length ≤ 2000 ∧
    ∃ t, titleStringOf doc = some t ∧
      s = pySlice (t ++ "\n\n" ++ bodyTextOf doc) 2000 := by
  unfold extract_text at h
  cases ht : titleStringOf doc with
  | none => rw [ht] at h; exact absurd h (by simp)
  | some t =>
    rw [ht] at h
    simp only [Option.some.injEq] at h
    refine ⟨?_, t, rfl, h.symm⟩
    rw [← h]
    exact length_pySlice _ _

/-- Witness for C1: the worked scenario instantiates the theorem. -/
theorem extract_output_length_witness :
    ("Hi\n\nHello" : String).length ≤ 2000 ∧
    ∃ t, titleStringOf scenarioDoc = some t ∧
      "Hi\n\nHello" = pySlice (t ++ "\n\n" ++ bodyTextOf scenarioDoc) 2000 :=
  extract_output_length scenarioDoc "Hi\n\nHello" (by decide)

/-- Counterexample to C2 as stated: for a document whose title element
holds a 2000-character text, the output is the truncated title alone, and
it does not begin with the title's text followed by two newlines (the cut
lands before the newlines). -/
theorem long_title_not_fully_present :
    extract_text longTitleDoc = some longTitle ∧
    strBeginsWith longTitle (longTitle ++ "\n\n") = false := by
  constructor
  · have e1 : ("" : String).data = [] := rfl
    have e2 : longTitle.data = List.replicate 2000 'a' := rfl
    have key : pySlice (longTitle ++ "\n\n" ++ "") 2000 = longTitle := by
      apply strExt
      show ((longTitle ++ "\n\n" ++ "").data).take 2000 = longTitle.data
      rw [strData_append, strData_append, e1, List.append_nil, e2]
      exact List.take_left' (List.length_replicate 2000 'a')
    have h1 : titleStringOf longTitleDoc = some longTitle := rfl
    have h2 : bodyTextOf longTitleDoc = "" := rfl
    unfold extract_text
    rw [h1, h2]
    show some (pySlice (longTitle ++ "\n\n" ++ "") 2000) = some longTitle
    rw [key]
  · cases hp : (longTitle ++ "\n\n").data.isPrefixOf longTitle.data with
    | false => exact hp
    | true =>
      exfalso
      have hl := isPrefixOf_length_le _ _ hp
      have e2 : longTitle.data = List.replicate 2000 'a' := rfl
      have e3 : ("\n\n" : String).data = ['\n', '\n'] := rfl
      have e5 : (['\n', '\n'] : List Char).length = 2 := rfl
      rw [strData_append, e2, e3, List.length_append, List.length_replicate,
        e5] at hl
      omega

/-- Claim C2 (amended for truncation): whenever the extraction returns a
string, it begins with the first 2000 characters of the title's text
followed by two newlines (the full `title ++ "\n\n"` when that is at most
2000 characters long), and with `"No title found\n\n"` when no title
element exists. -/
theorem title_begins_output (doc : Doc) (s : String)
    (h : extract_text doc = some s) :
    (∀ e t, findFirstList "title" doc = some e → nodeString e = some t →
      strBeginsWith s (pySlice (t ++ "\n\n") 2000) = true) ∧
    (findFirstList "title" doc = none →
      strBeginsWith s "No title found\n\n" = true) := by
  unfold extract_text at h
  constructor
  · intro e t he ht
    have hts : titleStringOf doc = some t := by
      unfold titleStringOf
      rw [he]
      exact ht
    rw [hts] at h
    simp only [Option.some.injEq] at h
    rw [← h]
    exact beginsWith_slice (t ++ "\n\n") (bodyTextOf doc) 2000
  · intro hn
    have hts : titleStringOf doc = some "No title found" := by
      unfold titleStringOf
      rw [hn]
    rw [hts] at h
    simp only [Option.some.injEq] at h
    rw [← h]
    have h1 := beginsWith_slice ("No title found" ++ "\n\n") (bodyTextOf doc) 2000
    have h2 : pySlice ("No title found" ++ "\n\n") 2000 = "No title found\n\n" := by
      decide
    rw [h2] at h1
    exact h1

/-- Witness for C2: a small titled document instantiates the theorem. -/
theorem title_begins_output_witness :
    strBeginsWith "Hi\n\nx" (pySlice ("Hi" ++ "\n\n") 2000) = true :=
  (title_begins_output smallTitleDoc "Hi\n\nx" (by decide)).1
    (Node.elem "title" [] [Node.text "Hi"]) "Hi" rfl rfl

/-- Claim C3: on every exit path of the Selenium fetch, the driver is quit
exactly when it was created internally (no driver argument supplied) and
`close_driver` is true; in particular, with an internally created driver,
`close_driver = False` and a navigation error, the driver stays open and
the error propagates. -/
theorem selenium_driver_cleanup (driverProvided close_driver : Bool)
    (nav : Except Unit Doc) :
    ((fetch_website_contents_selenium driverProvided close_driver nav).2 = true
      ↔ (driverProvided = false ∧ close_driver = true))
    ∧ (fetch_website_contents_selenium false false (Except.error ())).2 = false
    ∧ (fetch_website_contents_selenium false false (Except.error ())).1
        = Except.error () := by
  refine ⟨?_, rfl, rfl⟩
  cases driverProvided <;> cases close_driver <;>
    simp [fetch_website_contents_selenium]

/-- Counterexample to C4 as stated: a 100 status code is not 2xx/3xx, yet
`raise_for_status` raises only for 4xx/5xx, so no fetch error occurs. -/
theorem status_100_no_fetch_error :
    isFetchErr (fetch_website_contents (HttpOutcome.response 100 [])) = false ∧
    ¬ (200 ≤ 100 ∧ 100 < 400) := by decide

/-- Claim C4 (amended to the statuses `raise_for_status` actually raises
on): the plain fetches fail exactly when a transport error occurs or the
response status is in `[400, 600)`; the two fetch entry points fail in
exactly the same cases, and the error carries no partial result. -/
theorem fetch_error_iff (o : HttpOutcome) :
    (isFetchErr (fetch_website_contents o) = true ↔
      (o = HttpOutcome.transportError ∨
        ∃ st doc, o = HttpOutcome.response st doc ∧ 400 ≤ st ∧ st < 600)) ∧
    isFetchErr (fetch_website_links o) = isFetchErr (fetch_website_contents o) := by
  cases o with
  | transportError =>
    constructor
    · simp [fetch_website_contents, isFetchErr]
    · rfl
  | response st doc =>
    have hb : raiseForStatus st = true ↔ (400 ≤ st ∧ st < 600) := by
      simp [raiseForStatus]
    constructor
    · cases hr : raiseForStatus st with
      | true =>
        simp only [fetch_website_contents, hr, if_true, isFetchErr]
        simp only [true_iff]
        exact Or.inr ⟨st, doc, rfl, hb.mp hr⟩
      | false =>
        simp only [fetch_website_contents, hr, Bool.false_eq_true, if_false,
          isFetchErr]
        simp only [false_iff]
        rintro (heq | ⟨st2, doc2, heq, h4, h6⟩)
        · exact HttpOutcome.noConfusion heq
        · cases heq
          rw [hb.mpr ⟨h4, h6⟩] at hr
          exact Bool.noConfusion hr
    · cases hr : raiseForStatus st <;>
        simp [fetch_website_contents, fetch_website_links, hr, isFetchErr]

/-- Claim C5: the link extraction returns exactly the href values of the
anchor elements in document order, dropping missing and empty hrefs and
keeping duplicates; on the spec's scenario it returns `["/x"]`, and on two
anchors with the same href it returns the href twice. -/
theorem links_document_order :
    (∀ doc : Doc, fetch_links_extract doc = links_spec doc) ∧
    fetch_links_extract linkScenarioDoc = ["/x"] ∧
    fetch_links_extract dupLinkDoc = ["/x", "/x"] := by
  refine ⟨?_, by decide, by decide⟩
  intro doc
  unfold fetch_links_extract links_spec
  rw [filter_truthy_filterMap, findAllList_eq_preorder, List.filterMap_map]
  rfl

/-- Counterexample to C6 as stated: with no body element and a
2001-character title, the extraction returns the first 2000 characters of
`title ++ "\n\n"`, which is not the title followed by two newlines. -/
theorem no_body_long_title_truncated :
    extract_text noBodyDoc = some truncB ∧
    truncB ≠ longTitleB ++ "\n\n" := by
  have e2 : longTitleB.data = List.replicate 2001 'b' := rfl
  have e3 : ("\n\n" : String).data = ['\n', '\n'] := rfl
  have e4 : truncB.data = List.replicate 2000 'b' := rfl
  constructor
  · have e1 : ("" : String).data = [] := rfl
    have key : pySlice (longTitleB ++ "\n\n" ++ "") 2000 = truncB := by
      apply strExt
      show ((longTitleB ++ "\n\n" ++ "").data).take 2000 = truncB.data
      rw [strData_append, strData_append, e1, List.append_nil, e2, e3, e4]
      rw [List.take_append_eq_append_take, List.take_replicate,
        List.length_replicate]
      have m1 : min 2000 2001 = 2000 := by omega
      have m2 : 2000 - 2001 = 0 := by omega
      rw [m1, m2, List.take_zero, List.append_nil]
    have h1 : titleStringOf noBodyDoc = some longTitleB := rfl
    have h2 : bodyTextOf noBodyDoc = "" := rfl
    unfold extract_text
    rw [h1, h2]
    show some (pySlice (longTitleB ++ "\n\n" ++ "") 2000) = some truncB
    rw [key]
  · intro h
    have e5 : (['\n', '\n'] : List Char).length = 2 := rfl
    have hl := congrArg String.data h
    rw [strData_append, e2, e3, e4] at hl
    have hlen := congrArg List.length hl
    rw [List.length_append, List.length_replicate, List.length_replicate,
      e5] at hlen
    omega

/-- Claim C6 (amended for truncation): with no body element the body text
is the empty string, and the extraction returns the title followed by two
newlines — truncated to 2000 characters — and nothing else. -/
theorem no_body_title_only (doc : Doc)
    (h : findFirstList "body" doc = none) :
    bodyTextOf doc = "" ∧
    ∀ t, titleStringOf doc = some t →
      extract_text doc = some (pySlice (t ++ "\n\n") 2000) := by
  have hbody : bodyTextOf doc = "" := by
    unfold bodyTextOf
    rw [h]
  refine ⟨hbody, ?_⟩
  intro t ht
  unfold extract_text
  rw [ht, hbody]
  show some (pySlice (t ++ "\n\n" ++ "") 2000) = some (pySlice (t ++ "\n\n") 2000)
  have heq : t ++ "\n\n" ++ "" = t ++ "\n\n" := by
    apply strExt
    rw [strData_append]
    show (t ++ "\n\n").data ++ ([] : List Char) = (t ++ "\n\n").data
    exact List.append_nil _
  rw [heq]

/-- Witness for C6: the empty document has no body element. -/
theorem no_body_title_only_witness :
    bodyTextOf ([] : Doc) = "" ∧
    extract_text ([] : Doc) = some (pySlice ("No title found" ++ "\n\n") 2000) :=
  ⟨(no_body_title_only [] rfl).1,
   (no_body_title_only [] rfl).2 "No title found" rfl⟩

/-- Counterexample to C7 as stated: when a paragraph and a script inside
the body carry the same text, the script's original text content (which is
a substring of itself) does appear in the output, contributed by the
surviving paragraph. -/
theorem noise_text_can_reappear :
    extract_text dupTextDoc = some "No title found\n\nbad()" ∧
    hasInfix "bad()".data "No title found\n\nbad()".data = true := by decide

/-- Claim C7 (amended): the noise elements are removed destructively — the
text collected from the body after decomposition is exactly the text of
the nodes lying outside every script/style/img/input element, so noise
content contributes nothing (though identical text from non-noise nodes
may still appear). -/
theorem noise_content_discarded (doc : Doc) (b : Node)
    (hb : findFirstList "body" doc = some b) :
    bodyTextOf doc =
      pyJoin "\n" (((outsideNoiseNode b).map pyStrip).filter (fun s => s != "")) := by
  unfold bodyTextOf
  rw [hb]
  show get_text (decomposeNoise b) = _
  unfold get_text
  rw [allStrings_decompose b]

/-- Witness for C7: the worked scenario's body instantiates the theorem. -/
theorem noise_content_discarded_witness :
    bodyTextOf scenarioDoc =
      pyJoin "\n" (((outsideNoiseNode scenarioBody).map pyStrip).filter
        (fun s => s != "")) :=
  noise_content_discarded scenarioDoc scenarioBody rfl

/-- Claim C8: on the same parsed markup, the extraction-and-truncation
performed inside the Selenium fetch produces exactly the same string as
the plain path's extraction. -/
theorem selenium_extraction_agrees (doc : Doc) :
    extract_text_selenium doc = extract_text doc := by
  unfold extract_text extract_text_selenium titleStringOf bodyTextOf
  rfl

/-- Claim C9: on the spec's worked scenario the extraction returns exactly
`"Hi\n\nHello"`. -/
theorem scenario_hi_hello : extract_text scenarioDoc = some "Hi\n\nHello" := by
  decide

/-- Claim C10: for a document whose title element is present but empty,
the computed title is Python `None` and the extraction raises a
`TypeError` (modelled as `none`) instead of returning a string or falling
back to `"No title found"`. -/
theorem empty_title_gives_type_error :
    (findFirstList "title" emptyTitleDoc).isSome = true ∧
    titleStringOf emptyTitleDoc = none ∧
    extract_text emptyTitleDoc = none := by decide

end Scraper
